import Mathlib

/-!
Verification of `pikepdf.models.matrix.PdfMatrix` (src/pikepdf/models/matrix.py).

The class stores a 3x3 coefficient grid as a tuple of tuples (`values`) and
offers: a polymorphic constructor (`__init__`), `identity`, matrix
multiplication (`__matmul__`), `scaled` / `rotated` / `translated`, the
`shorthand` tuple and the six accessors `a..f`, `__eq__`, and `encode`.

Modelling choices:
* Python floats are idealised as elements of a commutative ring `α`
  (instantiated at `ℚ` for the computable claims and at `ℝ` for the
  trigonometric ones); the per-term `float(...)` coercions of the source are
  the identity under this idealisation.
* The duck-typed constructor argument universe is restricted to the shapes
  the claims quantify over: scalars, flat numeric sequences, nested numeric
  sequences (grids) and existing `PdfMatrix` instances (`PyArg`).
* Python exceptions are explicit: `Except (PyError α)` with
  `PyError.valueError args` modelling `ValueError('invalid arguments: ' +
  repr(args))` (it carries the offending argument list) and
  `PyError.typeError` modelling `TypeError` (e.g. `len()` of a scalar or
  `float()` of a non-number).
* Python tuple indexing out of range raises `IndexError`; the accessors are
  modelled totally with `List.getD _ 0`, and are only ever applied in-range
  in the theorems below.
-/

/-- The `PdfMatrix` instance state: the `values` attribute, a tuple of row
tuples, kept as a list of rows.  The source never rebinds `values` after
`__init__` and it is an immutable tuple, so a pure value faithfully models an
instance. -/
structure PdfMatrix (α : Type) where
  values : List (List α)

/-- Universe of Python values supplied to `PdfMatrix.__init__`: a number, a
flat sequence of numbers, a nested sequence of sequences of numbers, or an
existing `PdfMatrix`. -/
inductive PyArg (α : Type) where
  | num  (x : α)
  | seq  (xs : List α)
  | grid (rows : List (List α))
  | mat  (m : PdfMatrix α)

/-- The exceptions the constructor can raise: `ValueError` carrying the
offending argument list (the source formats `repr(args)` into the message),
or a `TypeError` from `len()` / `float()` / `tuple()` applied to a value of
the wrong type. -/
inductive PyError (α : Type) where
  | valueError (args : List (PyArg α))
  | typeError

/-- Python `float(x)`: succeeds exactly on numbers; sequences, grids and
`PdfMatrix` instances raise `TypeError`. -/
def PyArg.toFloat {α : Type} : PyArg α → Option α
  | .num x => some x
  | _ => none

/-- The grid `((a, b, 0), (c, d, 0), (e, f, 1))` built by the six-scalar and
six-element-sequence constructor paths of `__init__`. -/
def ofSix {α : Type} [CommRing α] (a b c d e f : α) : PdfMatrix α :=
  ⟨[[a, b, 0], [c, d, 0], [e, f, 1]]⟩

/-- `PdfMatrix.identity()` / the no-argument constructor:
`values = ((1, 0, 0), (0, 1, 0), (0, 0, 1))`. -/
def PdfMatrix.identity {α : Type} [CommRing α] : PdfMatrix α :=
  ⟨[[1, 0, 0], [0, 1, 0], [0, 0, 1]]⟩

/-- `PdfMatrix.__init__(*args)`, branch for branch:
`if not args` → identity grid; `elif len(args) == 6` → `map(float, args)`
then the shorthand grid; `elif isinstance(args[0], PdfMatrix)` → reuse its
`values`; `elif len(args[0]) == 6` → shorthand grid from the sequence
(`len()` of a scalar first argument raises `TypeError`);
`elif len(args[0]) == 3 and len(args[0][0]) == 3` → rows copied verbatim with
no further validation; `else` → `ValueError` carrying `args`. -/
def initArgs {α : Type} [CommRing α] (args : List (PyArg α)) :
    Except (PyError α) (PdfMatrix α) :=
  match args with
  | [] => .ok .identity
  | [x1, x2, x3, x4, x5, x6] =>
    match x1.toFloat, x2.toFloat, x3.toFloat, x4.toFloat, x5.toFloat, x6.toFloat with
    | some a, some b, some c, some d, some e, some f => .ok (ofSix a b c d e f)
    | _, _, _, _, _, _ => .error .typeError
  | a0 :: _ =>
    match a0 with
    | .mat m => .ok m
    | .num _ => .error .typeError
    | .seq xs =>
      match xs with
      | [a, b, c, d, e, f] => .ok (ofSix a b c d e f)
      | _ =>
        if xs.length = 3 then .error .typeError
        else .error (.valueError args)
    | .grid rows =>
      match rows with
      | [_, _, _, _, _, _] => .error .typeError
      | [r0, r1, r2] =>
        if r0.length = 3 then .ok ⟨[r0, r1, r2]⟩
        else .error (.valueError args)
      | _ => .error (.valueError args)

/-- Python `zip(*b)` applied to a list of rows: truncates every column to the
shortest row, exactly as `zip` does. -/
def pyzip {α : Type} [CommRing α] (rows : List (List α)) : List (List α) :=
  match rows with
  | [] => []
  | r :: rs =>
    let n := rs.foldl (fun acc row => min acc row.length) r.length
    (List.range n).map fun i => (r :: rs).map fun row => row.getD i 0

/-- `sum(float(i) * float(j) for i, j in zip(row, col))`; `zip` truncates to
the shorter list, and the `float` coercions are the identity here. -/
def dotZip {α : Type} [CommRing α] (xs ys : List α) : α :=
  ((xs.zip ys).map fun p => p.1 * p.2).sum

/-- `PdfMatrix.__matmul__`: builds the list-of-lists comprehension
`[[sum(float(i) * float(j) for i, j in zip(row, col)) for col in zip(*b)] for
row in a]` and passes it to the constructor (which can itself raise if the
computed shape is degenerate). -/
def PdfMatrix.matmul {α : Type} [CommRing α] (m other : PdfMatrix α) :
    Except (PyError α) (PdfMatrix α) :=
  initArgs
    [PyArg.grid
      (m.values.map fun row => (pyzip other.values).map fun col => dotZip row col)]

/-- `PdfMatrix.scaled(x, y) = self @ PdfMatrix((x, 0, 0, y, 0, 0))`. -/
def PdfMatrix.scaled {α : Type} [CommRing α] (m : PdfMatrix α) (x y : α) :
    Except (PyError α) (PdfMatrix α) :=
  (initArgs [PyArg.seq [x, 0, 0, y, 0, 0]]).bind fun n => m.matmul n

/-- `PdfMatrix.translated(x, y) = self @ PdfMatrix((1, 0, 0, 1, x, y))`. -/
def PdfMatrix.translated {α : Type} [CommRing α] (m : PdfMatrix α) (x y : α) :
    Except (PyError α) (PdfMatrix α) :=
  (initArgs [PyArg.seq [1, 0, 0, 1, x, y]]).bind fun n => m.matmul n

/-- `PdfMatrix.rotated(angle_degrees_ccw)`: `angle = angle_degrees_ccw / 180.0
* pi`, `c, s = cos(angle), sin(angle)`, then
`self @ PdfMatrix((c, s, -s, c, 0, 0))`.  Stated over `ℝ` since `cos`/`sin`
are transcendental. -/
noncomputable def PdfMatrix.rotated (m : PdfMatrix ℝ) (angleDegreesCcw : ℝ) :
    Except (PyError ℝ) (PdfMatrix ℝ) :=
  let angle := angleDegreesCcw / 180 * Real.pi
  let c := Real.cos angle
  let s := Real.sin angle
  (initArgs [PyArg.seq [c, s, -s, c, 0, 0]]).bind fun n => m.matmul n

/-- Accessor `a = values[0][0]`. -/
def PdfMatrix.a {α : Type} [CommRing α] (m : PdfMatrix α) : α :=
  (m.values.getD 0 []).getD 0 0

/-- Accessor `b = values[0][1]`. -/
def PdfMatrix.b {α : Type} [CommRing α] (m : PdfMatrix α) : α :=
  (m.values.getD 0 []).getD 1 0

/-- Accessor `c = values[1][0]`. -/
def PdfMatrix.c {α : Type} [CommRing α] (m : PdfMatrix α) : α :=
  (m.values.getD 1 []).getD 0 0

/-- Accessor `d = values[1][1]`. -/
def PdfMatrix.d {α : Type} [CommRing α] (m : PdfMatrix α) : α :=
  (m.values.getD 1 []).getD 1 0

/-- Accessor `e = values[2][0]`. -/
def PdfMatrix.e {α : Type} [CommRing α] (m : PdfMatrix α) : α :=
  (m.values.getD 2 []).getD 0 0

/-- Accessor `f = values[2][1]`. -/
def PdfMatrix.f {α : Type} [CommRing α] (m : PdfMatrix α) : α :=
  (m.values.getD 2 []).getD 1 0

/-- `PdfMatrix.shorthand = (a, b, c, d, e, f)`. -/
def PdfMatrix.shorthand {α : Type} [CommRing α] (m : PdfMatrix α) :
    α × α × α × α × α × α :=
  (m.a, m.b, m.c, m.d, m.e, m.f)

/-- `PdfMatrix.__eq__`: `isinstance(other, PdfMatrix)` then exact equality of
the shorthand tuples; any non-matrix value compares unequal. -/
def PdfMatrix.matEq (m : PdfMatrix ℚ) (other : PyArg ℚ) : Bool :=
  match other with
  | .mat n => decide (m.shorthand = n.shorthand)
  | _ => false

/-- Python `'{:.6f}'.format(x)`: sign of the value, then the absolute value
rounded to six decimal places (ties to even, as CPython's float formatting
rounds the exact binary value), integer part, a dot, and the fraction padded
to exactly six digits. -/
def fmt6 (q : ℚ) : String :=
  let x := if q < 0 then -q else q
  let scaledNum := x.num.toNat * 1000000
  let quo := scaledNum / x.den
  let rem := scaledNum % x.den
  let n :=
    if 2 * rem < x.den then quo
    else if x.den < 2 * rem then quo + 1
    else if quo % 2 = 0 then quo else quo + 1
  let ip := n / 1000000
  let fp := n % 1000000
  let fpStr := toString fp
  (if q < 0 then "-" else "") ++ toString ip ++ "." ++
    String.mk (List.replicate (6 - fpStr.length) '0') ++ fpStr

/-- `PdfMatrix.encode`: `'{:.6f} {:.6f} {:.6f} {:.6f} {:.6f} {:.6f}'.format(a,
b, c, d, e, f)` — six fixed-precision fields in the order `a b c d e f`,
separated by single spaces, with nothing before or after. -/
def PdfMatrix.encode (m : PdfMatrix ℚ) : String :=
  fmt6 m.a ++ " " ++ fmt6 m.b ++ " " ++ fmt6 m.c ++ " " ++
    fmt6 m.d ++ " " ++ fmt6 m.e ++ " " ++ fmt6 m.f

/-- The `.encode()` call on the format result: UTF-8 bytes of the string
(pure ASCII here). -/
def PdfMatrix.encodeBytes (m : PdfMatrix ℚ) : List UInt8 :=
  m.encode.toUTF8.data.toList

/-- The documented invariant: the grid is 3x3 with third column exactly
`(0, 0, 1)`, i.e. the instance is `ofSix a b c d e f` for some coefficients. -/
def PdfMatrix.isValid {α : Type} [CommRing α] (m : PdfMatrix α) : Prop :=
  ∃ a b c d e f : α, m.values = [[a, b, 0], [c, d, 0], [e, f, 1]]

/-! ### Helper lemmas -/

/-- The six-scalar / six-sequence grid satisfies the third-column invariant. -/
lemma ofSix_isValid {α : Type} [CommRing α] (a b c d e f : α) :
    (ofSix a b c d e f).isValid :=
  ⟨a, b, c, d, e, f, rfl⟩

/-- Multiplying two shorthand-form matrices: the closed form of
`__matmul__` on grids whose third column is `(0, 0, 1)`. -/
lemma matmul_ofSix {α : Type} [CommRing α] (a b c d e f a2 b2 c2 d2 e2 f2 : α) :
    (ofSix a b c d e f).matmul (ofSix a2 b2 c2 d2 e2 f2) =
      .ok (ofSix (a*a2 + b*c2) (a*b2 + b*d2) (c*a2 + d*c2) (c*b2 + d*d2)
                 (e*a2 + f*c2 + e2) (e*b2 + f*d2 + f2)) := by
  have h : (ofSix a b c d e f).matmul (ofSix a2 b2 c2 d2 e2 f2) =
      .ok ⟨[[a*a2 + (b*c2 + (0*e2 + 0)), a*b2 + (b*d2 + (0*f2 + 0)), a*0 + (b*0 + (0*1 + 0))],
            [c*a2 + (d*c2 + (0*e2 + 0)), c*b2 + (d*d2 + (0*f2 + 0)), c*0 + (d*0 + (0*1 + 0))],
            [e*a2 + (f*c2 + (1*e2 + 0)), e*b2 + (f*d2 + (1*f2 + 0)), e*0 + (f*0 + (1*1 + 0))]]⟩ := rfl
  rw [h]
  simp only [ofSix, Except.ok.injEq, PdfMatrix.mk.injEq, List.cons.injEq, and_true]
  repeat' apply And.intro
  all_goals ring

/-- A single flat-sequence argument whose length is neither 3 nor 6 falls
through every accepted shape test and reaches the final `else`:
`ValueError` carrying the argument list. -/
lemma initArgs_seq_valueError (xs : List ℚ) (h3 : xs.length ≠ 3) (h6 : xs.length ≠ 6) :
    initArgs [PyArg.seq xs] = .error (.valueError [PyArg.seq xs]) := by
  rcases xs with _ | ⟨a, _ | ⟨b, _ | ⟨c, _ | ⟨d, _ | ⟨e, _ | ⟨f, _ | ⟨g, rest⟩⟩⟩⟩⟩⟩⟩
  · rfl
  · rfl
  · rfl
  · exact absurd rfl h3
  · rfl
  · rfl
  · exact absurd rfl h6
  · rfl

/-- A single grid argument whose row count is neither 3 nor 6 falls through
every accepted shape test and reaches the final `else`: `ValueError` carrying
the argument list. -/
lemma initArgs_grid_valueError (rows : List (List ℚ)) (h3 : rows.length ≠ 3)
    (h6 : rows.length ≠ 6) :
    initArgs [PyArg.grid rows] = .error (.valueError [PyArg.grid rows]) := by
  rcases rows with _ | ⟨s1, _ | ⟨s2, _ | ⟨s3, _ | ⟨s4, _ | ⟨s5, _ | ⟨s6, _ | ⟨s7, rest⟩⟩⟩⟩⟩⟩⟩
  · rfl
  · rfl
  · rfl
  · exact absurd rfl h3
  · rfl
  · rfl
  · exact absurd rfl h6
  · rfl

/-! ### Claims -/

/-- C1: for any two instances with full 3x3 grids — including grids built via
the raw-grid constructor path with a non-standard third column — `A @ B`
returns a new instance whose entry at row `i`, column `j` is
`Σ_k A.values[i][k] * B.values[k][j]` (the `float` coercions of each term are
the identity under the rational idealisation of floats). -/
theorem compose_is_matrix_product
    (a00 a01 a02 a10 a11 a12 a20 a21 a22 b00 b01 b02 b10 b11 b12 b20 b21 b22 : ℚ) :
    (PdfMatrix.mk [[a00, a01, a02], [a10, a11, a12], [a20, a21, a22]]).matmul
      (PdfMatrix.mk [[b00, b01, b02], [b10, b11, b12], [b20, b21, b22]]) =
    .ok ⟨[[a00*b00 + a01*b10 + a02*b20, a00*b01 + a01*b11 + a02*b21, a00*b02 + a01*b12 + a02*b22],
          [a10*b00 + a11*b10 + a12*b20, a10*b01 + a11*b11 + a12*b21, a10*b02 + a11*b12 + a12*b22],
          [a20*b00 + a21*b10 + a22*b20, a20*b01 + a21*b11 + a22*b21, a20*b02 + a21*b12 + a22*b22]]⟩ := by
  have h : (PdfMatrix.mk [[a00, a01, a02], [a10, a11, a12], [a20, a21, a22]]).matmul
      (PdfMatrix.mk [[b00, b01, b02], [b10, b11, b12], [b20, b21, b22]]) =
    .ok ⟨[[a00*b00 + (a01*b10 + (a02*b20 + 0)), a00*b01 + (a01*b11 + (a02*b21 + 0)),
           a00*b02 + (a01*b12 + (a02*b22 + 0))],
          [a10*b00 + (a11*b10 + (a12*b20 + 0)), a10*b01 + (a11*b11 + (a12*b21 + 0)),
           a10*b02 + (a11*b12 + (a12*b22 + 0))],
          [a20*b00 + (a21*b10 + (a22*b20 + 0)), a20*b01 + (a21*b11 + (a22*b21 + 0)),
           a20*b02 + (a21*b12 + (a22*b22 + 0))]]⟩ := rfl
  rw [h]
  simp only [Except.ok.injEq, PdfMatrix.mk.injEq, List.cons.injEq, and_true]
  repeat' apply And.intro
  all_goals ring

/-- C2 counterexample: the raw-grid constructor path does not enforce the
third-column invariant.  The grid `((1, 0, 5), (0, 1, 0), (0, 0, 1))` has
third column `(5, 0, 1)`, yet construction succeeds and copies it verbatim,
so the resulting instance violates the invariant. -/
theorem grid_constructor_skips_invariant_cex :
    initArgs [PyArg.grid [[1, 0, 5], [0, 1, 0], [(0 : ℚ), 0, 1]]] =
      .ok ⟨[[1, 0, 5], [0, 1, 0], [(0 : ℚ), 0, 1]]⟩
    ∧ ¬ (PdfMatrix.mk [[1, 0, 5], [0, 1, 0], [(0 : ℚ), 0, 1]]).isValid := by
  refine ⟨rfl, ?_⟩
  rintro ⟨a, b, c, d, e, f, h⟩
  norm_num at h

/-- C2 amended: the third-column invariant `(0, 0, 1)` is unconditionally
satisfied by the no-argument/identity constructor, the six-scalar and
six-element-sequence constructors, copy construction from a conforming
instance, and the results of `@`, `scaled`, `translated` and `rotated`
applied to conforming instances; it is NOT enforced on the raw-grid
constructor path (see the counterexample). -/
theorem third_column_invariant_amended :
    (PdfMatrix.identity : PdfMatrix ℚ).isValid
    ∧ (∀ a b c d e f : ℚ,
        initArgs [PyArg.num a, .num b, .num c, .num d, .num e, .num f] =
          .ok (ofSix a b c d e f)
        ∧ initArgs [PyArg.seq [a, b, c, d, e, f]] = .ok (ofSix a b c d e f)
        ∧ (ofSix a b c d e f).isValid)
    ∧ (∀ m : PdfMatrix ℚ, initArgs [PyArg.mat m] = .ok m)
    ∧ (∀ a b c d e f a2 b2 c2 d2 e2 f2 : ℚ, ∃ r,
        (ofSix a b c d e f).matmul (ofSix a2 b2 c2 d2 e2 f2) = .ok r ∧ r.isValid)
    ∧ (∀ a b c d e f x y : ℚ, ∃ r, (ofSix a b c d e f).scaled x y = .ok r ∧ r.isValid)
    ∧ (∀ a b c d e f x y : ℚ, ∃ r, (ofSix a b c d e f).translated x y = .ok r ∧ r.isValid)
    ∧ (∀ a b c d e f θ : ℝ, ∃ r, (ofSix a b c d e f).rotated θ = .ok r ∧ r.isValid) := by
  refine ⟨⟨1, 0, 0, 1, 0, 0, rfl⟩,
    fun a b c d e f => ⟨rfl, rfl, ofSix_isValid a b c d e f⟩,
    fun m => rfl,
    fun a b c d e f a2 b2 c2 d2 e2 f2 =>
      ⟨_, matmul_ofSix a b c d e f a2 b2 c2 d2 e2 f2, ofSix_isValid _ _ _ _ _ _⟩,
    fun a b c d e f x y =>
      ⟨_, matmul_ofSix a b c d e f x 0 0 y 0 0, ofSix_isValid _ _ _ _ _ _⟩,
    fun a b c d e f x y =>
      ⟨_, matmul_ofSix a b c d e f 1 0 0 1 x y, ofSix_isValid _ _ _ _ _ _⟩,
    fun a b c d e f θ =>
      ⟨_, matmul_ofSix a b c d e f (Real.cos (θ / 180 * Real.pi))
            (Real.sin (θ / 180 * Real.pi)) (-Real.sin (θ / 180 * Real.pi))
            (Real.cos (θ / 180 * Real.pi)) 0 0,
        ofSix_isValid _ _ _ _ _ _⟩⟩

/-- C3 counterexample: constructing with 5 scalar arguments does not raise
`ValueError` (the spec's InvalidArgument); the chain reaches
`len(args[0])` on a scalar and raises `TypeError` instead, which carries no
argument list. -/
theorem five_scalars_type_error_cex :
    initArgs ([PyArg.num 1, .num 2, .num 3, .num 4, .num 5] : List (PyArg ℚ)) =
      .error .typeError
    ∧ (PyError.typeError : PyError ℚ) ≠
        .valueError [PyArg.num 1, .num 2, .num 3, .num 4, .num 5] :=
  ⟨rfl, fun h => nomatch h⟩

/-- C3 amended: `ValueError` (InvalidArgument), carrying the offending
argument list, is raised whenever the shape dispatch completes without
matching an accepted shape: for every single flat-sequence argument whose
length is neither 6 nor 3 (in particular length 4), for every single grid
argument whose row count is neither 3 nor 6, and for every 3-row grid whose
first row does not have length 3.  When a shape test itself fails mid-check,
the error is `TypeError` — carrying no argument list — rather than
InvalidArgument: 5 scalar arguments (`len()` on a scalar), a flat sequence of
length exactly 3 (`len()` on its scalar first element), and a 6-row grid
(`float()` on a row). -/
theorem init_error_kinds_amended :
    (∀ xs : List ℚ, xs.length ≠ 3 → xs.length ≠ 6 →
      initArgs [PyArg.seq xs] = .error (.valueError [PyArg.seq xs]))
    ∧ (∀ rows : List (List ℚ), rows.length ≠ 3 → rows.length ≠ 6 →
      initArgs [PyArg.grid rows] = .error (.valueError [PyArg.grid rows]))
    ∧ (∀ r0 r1 r2 : List ℚ, r0.length ≠ 3 →
      initArgs [PyArg.grid [r0, r1, r2]] =
        .error (.valueError [PyArg.grid [r0, r1, r2]]))
    ∧ (∀ x1 x2 x3 x4 : ℚ,
      initArgs [PyArg.seq [x1, x2, x3, x4]] =
        .error (.valueError [PyArg.seq [x1, x2, x3, x4]]))
    ∧ (∀ x y z : ℚ, initArgs [PyArg.seq [x, y, z]] = .error .typeError)
    ∧ (∀ s1 s2 s3 s4 s5 s6 : List ℚ,
      initArgs [PyArg.grid [s1, s2, s3, s4, s5, s6]] = .error .typeError)
    ∧ (∀ x1 x2 x3 x4 x5 : ℚ,
      initArgs [PyArg.num x1, .num x2, .num x3, .num x4, .num x5] =
        .error .typeError) := by
  refine ⟨initArgs_seq_valueError, initArgs_grid_valueError, ?_,
    fun x1 x2 x3 x4 => rfl, fun x y z => rfl, fun s1 s2 s3 s4 s5 s6 => rfl,
    fun x1 x2 x3 x4 x5 => rfl⟩
  intro r0 r1 r2 h
  have e : initArgs [PyArg.grid [r0, r1, r2]] =
      if r0.length = 3 then .ok ⟨[r0, r1, r2]⟩
      else .error (.valueError [PyArg.grid [r0, r1, r2]]) := rfl
  rw [e, if_neg h]

/-- Witness for the amended C3 theorem: its hypothesis-bearing clauses applied
at concrete inputs — a length-5 flat sequence, a 2-row grid, and a 3-row grid
whose first row has length 2, all rejected with `ValueError` carrying the
argument list. -/
theorem init_error_kinds_amended_witness :
    initArgs [PyArg.seq [(1 : ℚ), 2, 3, 4, 5]] =
      .error (.valueError [PyArg.seq [1, 2, 3, 4, 5]])
    ∧ initArgs [PyArg.grid [[(1 : ℚ)], [2]]] =
      .error (.valueError [PyArg.grid [[1], [2]]])
    ∧ initArgs [PyArg.grid [[(1 : ℚ), 2], [3], [4]]] =
      .error (.valueError [PyArg.grid [[1, 2], [3], [4]]]) :=
  ⟨init_error_kinds_amended.1 [1, 2, 3, 4, 5] (by decide) (by decide),
   init_error_kinds_amended.2.1 [[1], [2]] (by decide) (by decide),
   init_error_kinds_amended.2.2.1 [1, 2] [3] [4] (by decide)⟩

/-- C4: `encode()` emits the six shorthand coefficients in the fixed order
`a b c d e f`, each with exactly six digits after the decimal point,
single-space separated, nothing before or after; on the identity matrix the
result is exactly the ASCII byte sequence
`"1.000000 0.000000 0.000000 1.000000 0.000000 0.000000"`. -/
theorem encode_fixed_precision :
    (PdfMatrix.identity : PdfMatrix ℚ).encode =
      "1.000000 0.000000 0.000000 1.000000 0.000000 0.000000"
    ∧ (PdfMatrix.identity : PdfMatrix ℚ).encodeBytes =
      [49, 46, 48, 48, 48, 48, 48, 48, 32,
       48, 46, 48, 48, 48, 48, 48, 48, 32,
       48, 46, 48, 48, 48, 48, 48, 48, 32,
       49, 46, 48, 48, 48, 48, 48, 48, 32,
       48, 46, 48, 48, 48, 48, 48, 48, 32,
       48, 46, 48, 48, 48, 48, 48, 48]
    ∧ (∀ m : PdfMatrix ℚ, m.encode =
        fmt6 m.a ++ " " ++ fmt6 m.b ++ " " ++ fmt6 m.c ++ " " ++
          fmt6 m.d ++ " " ++ fmt6 m.e ++ " " ++ fmt6 m.f) :=
  ⟨by decide, by decide, fun m => rfl⟩

/-- C5: constructing from six scalars — as six arguments or as one
six-element sequence — yields the grid `((a, b, 0), (c, d, 0), (e, f, 1))`,
and `shorthand` reads back exactly `(a, b, c, d, e, f)` from grid positions
`(0,0), (0,1), (1,0), (1,1), (2,0), (2,1)` (the `float` coercions are the
identity under the idealisation). -/
theorem shorthand_round_trip (a b c d e f : ℚ) :
    initArgs [PyArg.num a, .num b, .num c, .num d, .num e, .num f] =
      .ok (ofSix a b c d e f)
    ∧ initArgs [PyArg.seq [a, b, c, d, e, f]] = .ok (ofSix a b c d e f)
    ∧ (ofSix a b c d e f).shorthand = (a, b, c, d, e, f)
    ∧ (ofSix a b c d e f).a = ((ofSix a b c d e f).values.getD 0 []).getD 0 0
    ∧ (ofSix a b c d e f).f = ((ofSix a b c d e f).values.getD 2 []).getD 1 0 :=
  ⟨rfl, rfl, rfl, rfl, rfl⟩

/-- C6: identity laws — `identity() @ M = M` and `M @ identity() = M` for
every valid instance `M = ofSix a b c d e f` (the result is even structurally
equal, hence equal under `__eq__`'s shorthand comparison as well). -/
theorem identity_law (a b c d e f : ℚ) :
    PdfMatrix.identity.matmul (ofSix a b c d e f) = .ok (ofSix a b c d e f)
    ∧ (ofSix a b c d e f).matmul PdfMatrix.identity = .ok (ofSix a b c d e f)
    ∧ (ofSix a b c d e f).matEq (.mat (ofSix a b c d e f)) = true := by
  refine ⟨?_, ?_, ?_⟩
  · have h := matmul_ofSix (1 : ℚ) 0 0 1 0 0 a b c d e f
    simpa using h
  · have h := matmul_ofSix a b c d e f (1 : ℚ) 0 0 1 0 0
    simpa using h
  · simp [PdfMatrix.matEq]

/-- C7: `__eq__` holds exactly when the shorthand six-tuples agree under
exact equality, whatever constructor paths produced the operands (the
six-scalar, sequence and copy paths give identical instances), and a
non-matrix value (number, flat sequence, nested sequence) is never equal to
an instance. -/
theorem eq_iff_shorthand (m n : PdfMatrix ℚ) (x : ℚ) (xs : List ℚ)
    (g : List (List ℚ)) (a b c d e f : ℚ) :
    (m.matEq (.mat n) = true ↔ m.shorthand = n.shorthand)
    ∧ m.matEq (.num x) = false
    ∧ m.matEq (.seq xs) = false
    ∧ m.matEq (.grid g) = false
    ∧ initArgs [PyArg.num a, .num b, .num c, .num d, .num e, .num f] =
        initArgs [PyArg.seq [a, b, c, d, e, f]]
    ∧ initArgs [PyArg.mat (ofSix a b c d e f)] = .ok (ofSix a b c d e f) := by
  refine ⟨?_, rfl, rfl, rfl, rfl, rfl⟩
  simp [PdfMatrix.matEq]

/-- C8: the embedding of every transform is a pure function — faithful to the
source, where `values` is an immutable tuple that no method ever rebinds — so
an original instance is unchanged by `scaled`, `rotated`, `translated` and
`@`: each returns a new instance (an `ok` result) and the original's
`shorthand` still equals its construction-time coefficients afterwards. -/
theorem transforms_leave_original_unchanged
    (a b c d e f x y θ a2 b2 c2 d2 e2 f2 : ℝ) :
    (∃ r, (ofSix a b c d e f).scaled x y = .ok r)
    ∧ (∃ r, (ofSix a b c d e f).rotated θ = .ok r)
    ∧ (∃ r, (ofSix a b c d e f).translated x y = .ok r)
    ∧ (∃ r, (ofSix a b c d e f).matmul (ofSix a2 b2 c2 d2 e2 f2) = .ok r)
    ∧ (ofSix a b c d e f).shorthand = (a, b, c, d, e, f) :=
  ⟨⟨_, matmul_ofSix a b c d e f x 0 0 y 0 0⟩,
   ⟨_, matmul_ofSix a b c d e f (Real.cos (θ / 180 * Real.pi))
        (Real.sin (θ / 180 * Real.pi)) (-Real.sin (θ / 180 * Real.pi))
        (Real.cos (θ / 180 * Real.pi)) 0 0⟩,
   ⟨_, matmul_ofSix a b c d e f 1 0 0 1 x y⟩,
   ⟨_, matmul_ofSix a b c d e f a2 b2 c2 d2 e2 f2⟩,
   rfl⟩

/-- C9: `rotated(angle)` is `self @ PdfMatrix((cos θ, sin θ, -sin θ, cos θ,
0, 0))` with `θ = angle · π / 180`; in particular rotating the identity by 0°
gives shorthand `(1, 0, 0, 1, 0, 0)` and by 90° gives `(0, 1, -1, 0, 0, 0)`
(exactly, under the real-number idealisation of floats). -/
theorem rotated_spec :
    (∀ (m : PdfMatrix ℝ) (θ : ℝ),
      m.rotated θ =
        m.matmul (ofSix (Real.cos (θ * Real.pi / 180)) (Real.sin (θ * Real.pi / 180))
          (-Real.sin (θ * Real.pi / 180)) (Real.cos (θ * Real.pi / 180)) 0 0))
    ∧ PdfMatrix.identity.rotated 0 = .ok (ofSix 1 0 0 1 0 0)
    ∧ PdfMatrix.identity.rotated 90 = .ok (ofSix 0 1 (-1) 0 0 0) := by
  refine ⟨fun m θ => ?_, ?_, ?_⟩
  · show m.matmul (ofSix (Real.cos (θ / 180 * Real.pi)) (Real.sin (θ / 180 * Real.pi))
        (-Real.sin (θ / 180 * Real.pi)) (Real.cos (θ / 180 * Real.pi)) 0 0) = _
    rw [show θ / 180 * Real.pi = θ * Real.pi / 180 by ring]
  · have h0 : (0 : ℝ) / 180 * Real.pi = 0 := by norm_num
    show PdfMatrix.identity.matmul
        (ofSix (Real.cos ((0 : ℝ) / 180 * Real.pi)) (Real.sin ((0 : ℝ) / 180 * Real.pi))
          (-Real.sin ((0 : ℝ) / 180 * Real.pi)) (Real.cos ((0 : ℝ) / 180 * Real.pi)) 0 0) = _
    rw [h0, Real.cos_zero, Real.sin_zero, neg_zero]
    have h := matmul_ofSix (1 : ℝ) 0 0 1 0 0 1 0 0 1 0 0
    simpa using h
  · have h90 : (90 : ℝ) / 180 * Real.pi = Real.pi / 2 := by ring
    show PdfMatrix.identity.matmul
        (ofSix (Real.cos ((90 : ℝ) / 180 * Real.pi)) (Real.sin ((90 : ℝ) / 180 * Real.pi))
          (-Real.sin ((90 : ℝ) / 180 * Real.pi)) (Real.cos ((90 : ℝ) / 180 * Real.pi)) 0 0) = _
    rw [h90, Real.cos_pi_div_two, Real.sin_pi_div_two]
    have h := matmul_ofSix (1 : ℝ) 0 0 1 0 0 0 1 (-1) 0 0 0
    simpa using h

/-- C10: the raw-grid shape check is shallow — a single nested-sequence
argument is accepted whenever the outer sequence has length 3 and its first
row has length 3; the second and third rows are copied verbatim with their
lengths and contents unchecked, e.g. `((1, 0, 0), (0,), ())` is accepted. -/
theorem raw_grid_shallow_check (x y z : ℚ) (r1 r2 : List ℚ) :
    initArgs [PyArg.grid [[x, y, z], r1, r2]] = .ok ⟨[[x, y, z], r1, r2]⟩
    ∧ initArgs [PyArg.grid [[1, 0, 0], [0], ([] : List ℚ)]] =
        .ok ⟨[[1, 0, 0], [0], []]⟩ :=
  ⟨rfl, rfl⟩
